import Mathlib

/-!
Shallow embedding of the outfit compatibility and recommendation engine of
the wardrobe-system backend: `app/services/outfit_matching_service.py`,
`app/services/occasion_analysis.py` and `app/services/recommendation_services.py`.

Python float arithmetic is idealised with exact rationals; Python strings are
modelled with Lean strings over their character lists.  External numeric
capabilities (sklearn cosine similarity, the sentence-transformer text
encoder) are injected as function parameters, as are the random choices of
the combinatorial generator.
-/

/- Batteries marks these rational primitives irreducible, which blocks the
evaluation of concrete witnesses by `decide`; restore their default
reducibility for this development. -/
attribute [local semireducible] Rat.add Rat.sub Rat.mul Rat.inv Rat.ofScientific

namespace Wardrobe

/-- Value of one hexadecimal digit, `none` when the character is not one.
Models the digit handling of Python `int(s, 16)` (leniency of `int` towards
surrounding whitespace, signs and underscores is not modelled; no claim
touches such strings). -/
def hexDigitVal (c : Char) : Option Nat :=
  if '0' ≤ c ∧ c ≤ '9' then some (c.toNat - '0'.toNat)
  else if 'a' ≤ c ∧ c ≤ 'f' then some (c.toNat - 'a'.toNat + 10)
  else if 'A' ≤ c ∧ c ≤ 'F' then some (c.toNat - 'A'.toNat + 10)
  else none

/-- Two hex digits as one byte value. -/
def hexPairVal (c1 c2 : Char) : Option Nat :=
  match hexDigitVal c1, hexDigitVal c2 with
  | some h, some l => some (16 * h + l)
  | _, _ => none

/-- Model of `hex_to_rgb` (outfit_matching_service.py): strip every leading
`#`, require exactly six characters, parse three bytes; any failure gives
the default gray (128, 128, 128) instead of raising. -/
def hex_to_rgb (s : String) : Nat × Nat × Nat :=
  match s.toList.dropWhile (fun c => c = '#') with
  | [a, b, c, d, e, f] =>
    match hexPairVal a b, hexPairVal c d, hexPairVal e f with
    | some r, some g, some bl => (r, g, bl)
    | _, _, _ => (128, 128, 128)
  | _ => (128, 128, 128)

/-- Python float modulo for a positive modulus: `x - m * floor (x / m)`. -/
def pymod (x m : ℚ) : ℚ := x - m * (⌊x / m⌋ : ℤ)

/-- Model of `rgb_to_hsv` (outfit_matching_service.py): hue in degrees,
saturation and value in [0, 1]. -/
def rgb_to_hsv (ri gi bi : Nat) : ℚ × ℚ × ℚ :=
  let r : ℚ := (ri : ℚ) / 255
  let g : ℚ := (gi : ℚ) / 255
  let b : ℚ := (bi : ℚ) / 255
  let maxv := max r (max g b)
  let minv := min r (min g b)
  let d := maxv - minv
  let h :=
    if d = 0 then 0
    else if maxv = r then pymod (60 * ((g - b) / d) + 360) 360
    else if maxv = g then pymod (60 * ((b - r) / d) + 120) 360
    else pymod (60 * ((r - g) / d) + 240) 360
  let s := if maxv = 0 then 0 else d / maxv
  (h, s, maxv)

/-- Model of `is_neutral_color`: saturation below 0.2. -/
def is_neutral_color (r g b : Nat) : Bool :=
  decide ((rgb_to_hsv r g b).2.1 < (0.2 : ℚ))

/-- A hex color string whose parsed RGB value is neutral. -/
def neutralHex (c : String) : Bool :=
  match hex_to_rgb c with
  | (r, g, b) => is_neutral_color r g b

/-- HSV triple of a hex color string. -/
def hsvOfHex (c : String) : ℚ × ℚ × ℚ :=
  match hex_to_rgb c with
  | (r, g, b) => rgb_to_hsv r g b

/-- Circular hue distance `min (|h1-h2|) (360 - |h1-h2|)`, as in the
pairwise loop of `get_color_harmony_type`. -/
def circularHueDiff (h1 h2 : ℚ) : ℚ := min |h1 - h2| (360 - |h1 - h2|)

/-- All pairwise values `f l[i] l[j]` with `i < j`, in the order produced
by `itertools.combinations` and by the double loop over hue indices. -/
def pairwiseVals {α β : Type} (f : α → α → β) : List α → List β
  | [] => []
  | a :: l => l.map (f a) ++ pairwiseVals f l

/-- Model of `get_color_harmony_type` (outfit_matching_service.py).  The
fold seeds 0 for `max(hue_diffs)` because circular hue distances are
nonnegative. -/
def get_color_harmony_type (colors_hex : List String) : String :=
  if colors_hex.length < 2 then "monochromatic"
  else
    let neutral_count := colors_hex.countP neutralHex
    let hsv_colors := (colors_hex.filter (fun c => !neutralHex c)).map hsvOfHex
    if (colors_hex.length : ℚ) * 0.7 ≤ (neutral_count : ℚ) then "neutral"
    else if hsv_colors.length < 2 then "neutral"
    else
      let hues := hsv_colors.map (fun t => t.1)
      let hue_diffs := pairwiseVals circularHueDiff hues
      if hue_diffs = [] then "monochromatic"
      else
        let avg_hue_diff := hue_diffs.sum / (hue_diffs.length : ℚ)
        let max_hue_diff := hue_diffs.foldr max 0
        if max_hue_diff < 30 then "analogous"
        else if hue_diffs.any (fun d => decide ((150 : ℚ) ≤ d ∧ d ≤ 210)) then "complementary"
        else if hue_diffs.any (fun d => decide ((90 : ℚ) ≤ d ∧ d ≤ 150)) then "triadic"
        else if (60 : ℚ) < avg_hue_diff then "diverse"
        else "related"

/-- The `harmony_scores` lookup of `check_color_harmony`, with the
`dict.get` default 0.6. -/
def harmonyBaseScore (t : String) : ℚ :=
  if t = "neutral" then 0.95
  else if t = "monochromatic" then 0.90
  else if t = "analogous" then 0.85
  else if t = "complementary" then 0.75
  else if t = "triadic" then 0.70
  else if t = "related" then 0.65
  else if t = "diverse" then 0.45
  else 0.6

/-- `np.var`: mean squared deviation from the mean, 0 on the empty list. -/
def npVar (l : List ℚ) : ℚ :=
  if l = [] then 0
  else
    let m := l.sum / (l.length : ℚ)
    (l.map (fun s => (s - m) ^ 2)).sum / (l.length : ℚ)

/-- First-occurrence deduplication with an accumulator of already-seen
elements; models Python `list(dict.fromkeys(xs))` and — up to the arbitrary
iteration order of a Python set, which the harmony analysis is insensitive
to — `list(set(xs))`. -/
def dedupFirstAux {α : Type} [DecidableEq α] (seen : List α) : List α → List α
  | [] => []
  | a :: l => if a ∈ seen then dedupFirstAux seen l else a :: dedupFirstAux (a :: seen) l

/-- First-occurrence deduplication of a list. -/
def dedupFirst {α : Type} [DecidableEq α] (l : List α) : List α := dedupFirstAux [] l

/-- Body of `check_color_harmony` after deduplication (`unique_colors` in
the source).  Fold seeds 0 and 255 for `max`/`min` of the per-color mean
RGB are neutral because every such mean lies in [0, 255]. -/
def harmonyOfUnique (unique_colors : List String) : ℚ :=
  if unique_colors.length = 1 then 1.0
  else
    let harmony_type := get_color_harmony_type unique_colors
    let base0 := harmonyBaseScore harmony_type
    let brightness_values := unique_colors.map (fun c =>
      match hex_to_rgb c with
      | (r, g, b) => ((r + g + b : Nat) : ℚ) / 3)
    let brightness_range := brightness_values.foldr max 0 - brightness_values.foldr min 255
    let base1 :=
      if (200 : ℚ) < brightness_range then base0 * 0.8
      else if brightness_range < 50 then base0 * 0.9
      else base0
    let saturations := unique_colors.map (fun c => (hsvOfHex c).2.1)
    let saturation_variance := if saturations = [] then 0 else npVar saturations
    let base2 := if (0.3 : ℚ) < saturation_variance then base1 * 0.85 else base1
    let base3 :=
      if unique_colors.length = 2 then
        if harmony_type = "neutral" ∨ harmony_type = "analogous" then base2 * 1.1 else base2
      else if unique_colors.length = 3 then
        if harmony_type = "neutral" ∨ harmony_type = "analogous" ∨ harmony_type = "triadic" then
          base2 * 1.05
        else base2
      else base2
    let base4 := if 5 < unique_colors.length then base3 * 0.7 else base3
    min 1 (max 0 base4)

/-- Model of `check_color_harmony` (outfit_matching_service.py). -/
def check_color_harmony (colors_hex : List String) : ℚ :=
  if colors_hex.length < 2 then 1.0
  else harmonyOfUnique (dedupFirst colors_hex)

/-- The feature dict handed to `calculate_compatibility_score`: an empty
embedding or color list models a missing/falsy entry; `name` and `category`
are carried along by the recommendation services. -/
structure ItemFeatures where
  id : Nat
  name : String
  embedding : List ℚ
  colors : List String
  category : String
deriving DecidableEq

/-- The result dict of `calculate_compatibility_score`. -/
structure CompatibilityResult where
  score : ℚ
  style_cohesion_score : ℚ
  color_harmony_score : ℚ
  message : String
deriving DecidableEq

/-- Python `round(x, 3)` idealised over ℚ: nearest multiple of 1/1000
(the exact tie-breaking of binary floats is not modelled). -/
def round3 (q : ℚ) : ℚ := ((round (q * 1000) : ℤ) : ℚ) / 1000

/-- Style-cohesion part of `calculate_compatibility_score`: the average
pairwise cosine similarity of the items that have a (truthy) embedding,
rescaled from [-1, 1] to [0, 1]; neutral 0.5 when fewer than two embeddings
exist.  Cosine similarity (sklearn) is external numeric code, injected as
the parameter `cs`. -/
def style_cohesion_raw (cs : List ℚ → List ℚ → ℚ) (items : List ItemFeatures) : ℚ :=
  let embeddings := (items.filter (fun i => !i.embedding.isEmpty)).map (fun i => i.embedding)
  if 2 ≤ embeddings.length then
    let sims := pairwiseVals cs embeddings
    if sims = [] then 0 else (sims.sum / (sims.length : ℚ) + 1) / 2
  else 0.5

/-- The pooled `unique_colors_hex`: dominant colors of all items (Python
extends only truthy lists, i.e. flattens), deduplicated as
`list(set(...))`. -/
def pooled_unique_colors (items : List ItemFeatures) : List String :=
  dedupFirst (items.flatMap (fun i => if i.colors.isEmpty then [] else i.colors))

/-- Color-harmony part of `calculate_compatibility_score`. -/
def color_harmony_raw (items : List ItemFeatures) : ℚ :=
  check_color_harmony (pooled_unique_colors items)

/-- The weighted overall score before rounding:
`max(0, min(1, 0.7·style + 0.3·color))`. -/
def overall_raw (cs : List ℚ → List ℚ → ℚ) (items : List ItemFeatures) : ℚ :=
  max 0 (min 1 (style_cohesion_raw cs items * 0.7 + color_harmony_raw items * 0.3))

/-- Model of `OutfitMatchingService.calculate_compatibility_score`. -/
def calculate_compatibility_score (cs : List ℚ → List ℚ → ℚ)
    (item_features : List ItemFeatures) : CompatibilityResult :=
  if item_features.length < 2 then
    { score := 0.0, style_cohesion_score := 0.0, color_harmony_score := 0.0,
      message := "Not enough items to compare." }
  else
    { score := round3 (overall_raw cs item_features),
      style_cohesion_score := round3 (style_cohesion_raw cs item_features),
      color_harmony_score := round3 (color_harmony_raw item_features),
      message := "Compatibility calculated." }

/-! ### String utilities shared by the occasion and recommendation models -/

/-- Character-wise lowercase, Python `str.lower()` on ASCII input. -/
def lowerStr (s : String) : String := String.mk (s.toList.map Char.toLower)

/-- Does the list start with the given pattern? -/
def listStartsWith {α : Type} [DecidableEq α] : List α → List α → Bool
  | _, [] => true
  | [], _ :: _ => false
  | a :: l, b :: m => if a = b then listStartsWith l m else false

/-- Does the pattern occur as a contiguous run?  (Python `pat in s`.) -/
def listContainsSeq {α : Type} [DecidableEq α] (pat : List α) : List α → Bool
  | [] => pat.isEmpty
  | a :: t => listStartsWith (a :: t) pat || listContainsSeq pat t

/-- Python substring test `needle in hay`. -/
def strContainsStr (hay needle : String) : Bool := listContainsSeq needle.toList hay.toList

/-- Helper for `splitWords`: accumulates the current word reversed. -/
def splitWordsAux : List Char → List Char → List String
  | [], cur => if cur = [] then [] else [String.mk cur.reverse]
  | c :: rest, cur =>
    if c.isWhitespace then
      if cur = [] then splitWordsAux rest []
      else String.mk cur.reverse :: splitWordsAux rest []
    else splitWordsAux rest (c :: cur)

/-- Python `str.split()`: words separated by whitespace runs. -/
def splitWords (s : String) : List String := splitWordsAux s.toList []

/-- Python `str.strip()`: drop leading and trailing whitespace. -/
def pystrip (s : String) : String :=
  String.mk (((s.toList.dropWhile Char.isWhitespace).reverse.dropWhile
    Char.isWhitespace).reverse)

/-- Stable insertion before the first element `y` with `ge x y`. -/
def insertDescBy {α : Type} (ge : α → α → Bool) (x : α) : List α → List α
  | [] => [x]
  | y :: ys => if ge x y then x :: y :: ys else y :: insertDescBy ge x ys

/-- Insertion sort by a lax comparison; with `ge` a total lax order this is
the stable descending sort performed by Python `sorted(..., reverse=True)`. -/
def sortDescBy {α : Type} (ge : α → α → Bool) : List α → List α
  | [] => []
  | x :: xs => insertDescBy ge x (sortDescBy ge xs)

/-! ### Rule-based occasion suitability (occasion_analysis.py) -/

/-- One row of `OCCASION_MAPPING`. -/
structure OccasionSpec where
  name : String
  keywords : List String
  styles : List String
  colors : List String
  items : List String

/-- The `OCCASION_MAPPING` table, in Python dict insertion order. -/
def occasion_mapping : List OccasionSpec := [
  { name := "formal",
    keywords := ["formal", "business", "professional", "office", "meeting", "interview",
      "conference"],
    styles := ["classic", "professional", "minimalist", "elegant"],
    colors := ["black", "navy", "gray", "white", "dark"],
    items := ["blazer", "suit", "dress shirt", "tie", "formal shoes", "dress", "heels"] },
  { name := "casual",
    keywords := ["casual", "everyday", "relaxed", "comfortable", "weekend", "home"],
    styles := ["casual", "cozy", "comfortable", "relaxed"],
    colors := ["any"],
    items := ["jeans", "t-shirt", "sneakers", "hoodie", "cardigan", "casual dress"] },
  { name := "party",
    keywords := ["party", "celebration", "night out", "club", "dancing", "festive"],
    styles := ["bold", "statement", "glamorous", "edgy", "vibrant"],
    colors := ["bright", "metallic", "bold", "red", "gold", "silver"],
    items := ["dress", "heels", "jewelry", "clutch", "statement piece"] },
  { name := "wedding",
    keywords := ["wedding", "ceremony", "reception", "bridal", "guest"],
    styles := ["elegant", "classic", "sophisticated", "formal"],
    colors := ["pastels", "navy", "burgundy", "emerald", "avoid white"],
    items := ["dress", "suit", "heels", "formal shoes", "elegant accessories"] },
  { name := "church",
    keywords := ["church", "religious", "service", "worship", "conservative"],
    styles := ["modest", "conservative", "classic", "respectful"],
    colors := ["modest", "not too bright", "conservative"],
    items := ["modest dress", "blouse", "skirt", "conservative top", "closed shoes"] },
  { name := "outdoor",
    keywords := ["outdoor", "hiking", "camping", "sports", "active", "exercise"],
    styles := ["sporty", "functional", "comfortable", "practical"],
    colors := ["any", "earth tones", "bright for visibility"],
    items := ["athletic wear", "sneakers", "jacket", "comfortable pants"] },
  { name := "date",
    keywords := ["date", "romantic", "dinner", "restaurant", "romantic evening"],
    styles := ["romantic", "elegant", "attractive", "stylish"],
    colors := ["romantic", "flattering", "red", "soft colors"],
    items := ["dress", "nice top", "heels", "jewelry", "attractive outfit"] }]

/-- Hex value of the up-to-two-character slice of `cs` starting at `i`,
modelling Python `int(s[i:i+2], 16)`: two digits, one trailing digit, or
failure on an empty slice or non-digit (the enclosing `except` paths). -/
def sliceHexVal (cs : List Char) (i : Nat) : Option Nat :=
  match (cs.drop i).take 2 with
  | [c1, c2] => hexPairVal c1 c2
  | [c] => hexDigitVal c
  | _ => none

/-- Model of `is_bright_color` (occasion_analysis.py): mean RGB above 150
and channel spread above 100; parse failure gives `false`. -/
def is_bright_color (s : String) : Bool :=
  let cs := s.toList.dropWhile (fun c => c = '#')
  match sliceHexVal cs 0, sliceHexVal cs 2, sliceHexVal cs 4 with
  | some r, some g, some b =>
    decide ((150 : ℚ) < ((r + g + b : Nat) : ℚ) / 3)
      && decide (100 < max r (max g b) - min r (min g b))
  | _, _, _ => false

/-- Model of `is_dark_color`: mean RGB below 100. -/
def is_dark_color (s : String) : Bool :=
  let cs := s.toList.dropWhile (fun c => c = '#')
  match sliceHexVal cs 0, sliceHexVal cs 2, sliceHexVal cs 4 with
  | some r, some g, some b => decide (((r + g + b : Nat) : ℚ) / 3 < (100 : ℚ))
  | _, _, _ => false

/-- Model of `is_pastel_color`: mean RGB above 180 and spread below 80. -/
def is_pastel_color (s : String) : Bool :=
  let cs := s.toList.dropWhile (fun c => c = '#')
  match sliceHexVal cs 0, sliceHexVal cs 2, sliceHexVal cs 4 with
  | some r, some g, some b =>
    decide ((180 : ℚ) < ((r + g + b : Nat) : ℚ) / 3)
      && decide (max r (max g b) - min r (min g b) < 80)
  | _, _, _ => false

/-- Model of `is_metallic_color`: the byte at positions 1-2 of the
lowercased string (the source assumes a leading '#') within distance 50 of
the first byte of silver/gold/bronze/copper; parse failure gives `false`. -/
def is_metallic_color (s : String) : Bool :=
  match sliceHexVal (lowerStr s).toList 1 with
  | some v => [192, 255, 184, 205].any (fun m => decide (((v : ℤ) - m).natAbs < 50))
  | none => false

/-- Model of `analyze_style_for_occasion`: the occasions one of whose
preferred styles occurs in the lowercased style string. -/
def analyze_style_for_occasion (style : String) : List String :=
  let style_lower := lowerStr style
  (occasion_mapping.filter (fun oc =>
    oc.styles.any (fun ps => strContainsStr style_lower ps))).map (fun oc => oc.name)

/-- Per-occasion color score of `analyze_colors_for_occasion`: flat 0.7 for
palettes containing "any"; otherwise 0.3 per substring match (either
direction) between a color and a palette keyword, plus 0.2 per color from
the bright/dark/pastel/metallic elif chain; clamped to 1 at the end. -/
def color_score_for (colors : List String) (oc : OccasionSpec) : ℚ :=
  if oc.colors.contains "any" then 0.7
  else
    min 1 (colors.foldl (fun acc color =>
      let color_lower := lowerStr color
      let acc1 := acc + 0.3 * ((oc.colors.countP (fun pref =>
        strContainsStr color_lower pref || strContainsStr pref color_lower)) : ℚ)
      if oc.colors.contains "bright" && is_bright_color color then acc1 + 0.2
      else if oc.colors.contains "dark" && is_dark_color color then acc1 + 0.2
      else if oc.colors.contains "pastels" && is_pastel_color color then acc1 + 0.2
      else if oc.colors.contains "metallic" && is_metallic_color color then acc1 + 0.2
      else acc1) 0)

/-- Per-occasion item score of `analyze_items_for_occasion`: 0.4 per
identified item that matches some preferred item by substring or by sharing
one of its words, clamped to 1; 0 when no items were supplied. -/
def item_score_for (identified_items : List String) (oc : OccasionSpec) : ℚ :=
  if identified_items = [] then 0
  else
    min 1 (identified_items.foldl (fun acc item =>
      let item_lower := lowerStr item
      if oc.items.any (fun p =>
          strContainsStr item_lower p
            || (splitWords p).any (fun w => strContainsStr item_lower w)) then
        acc + 0.4
      else acc) 0)

/-- The weighted per-occasion final scores of
`determine_occasion_suitability` (0.4 style + 0.3 color + 0.3 items), in
occasion-table order. -/
def final_occasion_scores (style : String) (colors : List String)
    (identified_items : List String) : List (String × ℚ) :=
  let style_occasions := analyze_style_for_occasion style
  occasion_mapping.map (fun oc =>
    (oc.name,
      (if style_occasions.contains oc.name then (1 : ℚ) else 0) * 0.4
        + color_score_for colors oc * 0.3
        + item_score_for identified_items oc * 0.3))

/-- Python `"{:.0%}"` formatting for the nonnegative confidences produced
here: percentage rounded to an integer. -/
def formatPercent0 (q : ℚ) : String := toString (round (q * 100)) ++ "%"

/-- Model of `determine_occasion_suitability` (occasion_analysis.py). -/
def determine_occasion_suitability (style : String) (colors : List String)
    (identified_items : List String) (confidence_threshold : ℚ) : String :=
  let final_scores := final_occasion_scores style colors identified_items
  let suitable := final_scores.filter (fun p => decide (confidence_threshold ≤ p.2))
  let sorted := sortDescBy (fun a b => decide (b.2 ≤ a.2)) suitable
  match sorted with
  | [] => "This outfit has a versatile style that could work for various casual occasions."
  | [(occ, score)] =>
    "This outfit is well-suited for " ++ occ ++ " occasions (confidence: "
      ++ formatPercent0 score ++ ")."
  | _ =>
    let top := (sorted.take 3).map (fun p => p.1)
    "This outfit would work well for " ++ String.intercalate ", " top.dropLast
      ++ " and " ++ (top.getLast?.getD "") ++ " occasions."

/-! ### Occasion matching and wardrobe recommendations
(recommendation_services.py).  The database fetch, the weather filter and
the random substitution of missing AI features happen upstream of the
modelled logic; their outcome is the supplied list of outfits/items with
resolved features.  The sentence-transformer and sklearn cosine similarity
are external capabilities, injected as parameters. -/

/-- An outfit as seen by `find_ai_matched_outfits_for_occasion` after its
per-item feature dicts have been built. -/
structure OutfitRec where
  id : Nat
  items : List ItemFeatures
deriving DecidableEq

/-- One entry of the `scored_outfits` list. -/
structure ScoredOutfit where
  outfit : OutfitRec
  score : ℚ
  coherence : ℚ
deriving DecidableEq

/-- `np.mean(item_embeddings, axis=0)`: elementwise mean of the item
embeddings (equal lengths in every actual call). -/
def outfit_embedding_avg (items : List ItemFeatures) : List ℚ :=
  match items.map (fun i => i.embedding) with
  | [] => []
  | e :: es =>
    (es.foldl (fun acc v => acc.zipWith (fun a b => a + b) v) e).map
      (fun x => x / (items.length : ℚ))

/-- One iteration of the outfit loop of
`find_ai_matched_outfits_for_occasion`: skip outfits without items; skip
outfits whose (rounded) internal coherence is below the minimum; otherwise
blend the rescaled occasion similarity and the coherence `0.7 / 0.3`. -/
def score_outfit_for_occasion (cs : List ℚ → List ℚ → ℚ) (occEmb : List ℚ)
    (min_coherence_score : ℚ) (o : OutfitRec) : Option ScoredOutfit :=
  if o.items = [] then none
  else
    let coherence := (calculate_compatibility_score cs o.items).score
    if coherence < min_coherence_score then none
    else
      let avg := outfit_embedding_avg o.items
      let sim := (cs occEmb avg + 1) / 2
      some { outfit := o, score := 0.7 * sim + 0.3 * coherence, coherence := coherence }

/-- The descending sort key of `find_ai_matched_outfits_for_occasion`:
lexicographic on (final score, coherence). -/
def matchKeyGe (a b : ScoredOutfit) : Bool :=
  decide (b.score < a.score ∨ (b.score = a.score ∧ b.coherence ≤ a.coherence))

/-- Model of `find_ai_matched_outfits_for_occasion`
(recommendation_services.py).  `sm = none` models the unavailable
sentence-transformer; an encoder returning `none` models an exception
while encoding the occasion text. -/
def find_ai_matched_outfits_for_occasion (cs : List ℚ → List ℚ → ℚ)
    (sm : Option (String → Option (List ℚ))) (occasion_text : String)
    (user_outfits : List OutfitRec) (num_recommendations : Nat)
    (min_coherence_score : ℚ) : List OutfitRec :=
  sm.elim [] fun encode =>
    (encode occasion_text).elim [] fun occEmb =>
      if user_outfits = [] then []
      else
        let scored := user_outfits.filterMap
          (score_outfit_for_occasion cs occEmb min_coherence_score)
        let sorted := sortDescBy matchKeyGe scored
        (sorted.take num_recommendations).map (fun s => s.outfit)

/-- The occasion text `f"{occasion.name} {occasion.notes or ''}".strip()`
built by `recommend_outfits_for_occasion_service`. -/
def occasion_text_of (name : String) (notes : Option String) : String :=
  pystrip (name ++ " " ++ (match notes with
    | some s => if s = "" then "" else s
    | none => ""))

/-- Model of `recommend_outfits_for_occasion_service`: empty trimmed text
returns [] before any scoring; otherwise delegates to the matcher with the
default minimum coherence 0.4 (the schema validation of returned outfits
is the identity here). -/
def recommend_outfits_for_occasion_service (cs : List ℚ → List ℚ → ℚ)
    (sm : Option (String → Option (List ℚ))) (name : String)
    (notes : Option String) (user_outfits : List OutfitRec)
    (num_recommendations : Nat) : List OutfitRec :=
  let occasion_text := occasion_text_of name notes
  if occasion_text = "" then []
  else
    find_ai_matched_outfits_for_occasion cs sm occasion_text user_outfits
      num_recommendations 0.4

/-- The matchability test of `get_wardrobe_recommendations_service`:
`item.get("embedding") and item.get("colors") and item.get("category")`,
where empty values are falsy. -/
def item_matchable (i : ItemFeatures) : Bool :=
  !i.embedding.isEmpty && !i.colors.isEmpty && !(i.category == "")

/-- The fixed `outfit_structures` of the generator. -/
def outfit_structures : List (List String) :=
  [["Tops", "Bottoms"], ["Tops", "Bottoms", "Shoes"], ["Tops", "Bottoms", "Outerwear"]]

/-- The random draws of one generation attempt: which structure to use and,
per category of that structure, which item of the category pool to take. -/
structure RandomPick where
  structChoice : Nat
  itemChoices : List Nat
deriving DecidableEq

/-- Assemble one candidate outfit for the chosen structure: fail when a
required category has no items or offers only an already-chosen item
(`possible_to_form = False` in the source). -/
def attempt_outfit_go (items_by_category : String → List ItemFeatures) :
    List String → List Nat → List ItemFeatures → Option (List ItemFeatures)
  | [], _, acc => some acc
  | cat :: cats, choices, acc =>
    let pool := items_by_category cat
    if pool = [] then none
    else
      let chosen := pool.getD (choices.headD 0 % pool.length) ⟨0, "", [], [], ""⟩
      if (acc.map (fun i => i.id)).contains chosen.id then none
      else attempt_outfit_go items_by_category cats choices.tail (acc ++ [chosen])

/-- Python `f"{q:.2f}"` for the nonnegative scores occurring here. -/
def format2f (q : ℚ) : String :=
  let n := round (q * 100)
  let frac := (n % 100).toNat
  toString (n / 100) ++ "." ++ (if frac < 10 then "0" ++ toString frac else toString frac)

/-- Ascending stable sort of the item names, Python `sorted(names)`. -/
def sortNamesAsc (names : List String) : List String :=
  sortDescBy (fun a b => decide (a ≤ b)) names

/-- The attempts loop of the "New Outfit Ideas" generation: each element of
`picks` is one attempt (the source makes 15, drawn from the global RNG);
no further ideas are added once `max_ideas` are accepted; an idea is kept
when the combination has at least two items, its sorted name key is not a
substring of an earlier idea, and its compatibility score exceeds 0.55. -/
def generate_outfit_ideas (cs : List ℚ → List ℚ → ℚ)
    (items_by_category : String → List ItemFeatures) (picks : List RandomPick)
    (max_ideas : Nat) : List String :=
  picks.foldl (fun ideas p =>
    if max_ideas ≤ ideas.length then ideas
    else
      let struct := outfit_structures.getD (p.structChoice % outfit_structures.length) []
      match attempt_outfit_go items_by_category struct p.itemChoices [] with
      | none => ideas
      | some chosen =>
        if 2 ≤ chosen.length then
          let names := chosen.map (fun i => i.name)
          let sorted_names := String.intercalate ", " (sortNamesAsc names)
          if ideas.any (fun idea => strContainsStr idea sorted_names) then ideas
          else
            let details := calculate_compatibility_score cs chosen
            if (0.55 : ℚ) < details.score then
              ideas ++ ["Try combining: " ++ String.intercalate ", " names
                ++ " (Style: " ++ format2f details.style_cohesion_score
                ++ ", Color: " ++ format2f details.color_harmony_score
                ++ ", Overall: " ++ format2f details.score ++ ")"]
            else ideas
        else ideas) []

/-- The response object `PersonalizedWardrobeSuggestions`. -/
structure PersonalizedWardrobeSuggestions where
  newOutfitIdeas : List String
  itemsToAcquire : List String
deriving DecidableEq

/-- The generic fallback idea message. -/
def fallback_idea_message : String :=
  "Try experimenting with different combinations from your wardrobe! Use items from different categories like Tops, Bottoms, and Shoes."

/-- The no-gaps acquisition message. -/
def essentials_covered_message : String :=
  "Your wardrobe essentials seem covered! Explore accessories to diversify your looks."

/-- A single-quote character, used inside generated messages. -/
def squote : String := String.mk [Char.ofNat 39]

/-- Python `cat.lower()[:-1] if cat.endswith('s') else cat.lower()`. -/
def singularLower (cat : String) : String :=
  if cat.toList.getLast? = some 's' then String.mk ((lowerStr cat).toList.dropLast)
  else lowerStr cat

/-- The acquisition suggestion emitted for a missing essential category. -/
def acquire_message (cat : String) : String :=
  "Consider adding a versatile item to your " ++ squote ++ cat ++ squote
    ++ " collection (e.g., a neutral-colored " ++ singularLower cat ++ ")."

/-- The gap-analysis acquisition list: one message per essential category
({Tops, Bottoms, Shoes, Outerwear}, iterated here in a fixed order where
Python iterates a set) missing from the owned categories, or the covered
message when there is no gap. -/
def items_to_acquire_for (processed_user_items : List ItemFeatures) : List String :=
  let owned := processed_user_items.filterMap
    (fun i => if i.category = "" then none else some i.category)
  let missing := ["Tops", "Bottoms", "Shoes", "Outerwear"].filter
    (fun c => !(owned.contains c))
  let suggestions := missing.map acquire_message
  if suggestions = [] then [essentials_covered_message] else suggestions

/-- Model of `get_wardrobe_recommendations_service` from the point where
every item has its resolved feature dict (`processed_user_items` in the
source); `picks` injects the random draws of the generation loop. -/
def get_wardrobe_recommendations_core (cs : List ℚ → List ℚ → ℚ)
    (picks : List RandomPick) (processed_user_items : List ItemFeatures)
    (num_recommendations : Nat) : PersonalizedWardrobeSuggestions :=
  let matchable_items := processed_user_items.filter item_matchable
  let items_by_category := fun cat => matchable_items.filter (fun i => i.category == cat)
  let new_outfit_ideas :=
    if 2 ≤ matchable_items.length then
      generate_outfit_ideas cs items_by_category picks num_recommendations
    else []
  let with_fallback :=
    if new_outfit_ideas = [] ∧ matchable_items ≠ [] then [fallback_idea_message]
    else new_outfit_ideas
  { newOutfitIdeas := with_fallback.take num_recommendations,
    itemsToAcquire := (items_to_acquire_for processed_user_items).take 3 }

/-! ### Concrete sample data used by the witnesses -/

/-- A matchable sample top. -/
def sampleTop : ItemFeatures := ⟨1, "Red Tee", [1], ["#FF0000"], "Tops"⟩

/-- A matchable sample bottom. -/
def sampleBottom : ItemFeatures := ⟨2, "Red Pants", [1], ["#FF0000"], "Bottoms"⟩

/-- A sample outfit made of the two sample items. -/
def sampleOutfit : OutfitRec := ⟨1, [sampleTop, sampleBottom]⟩

/-! ### Helper lemmas about rounding -/

theorem round_q_mono {x y : ℚ} (h : x ≤ y) : round x ≤ round y := by
  rw [round_eq, round_eq]
  exact Int.floor_mono (by linarith)

theorem round3_unit {q : ℚ} (h0 : 0 ≤ q) (h1 : q ≤ 1) : 0 ≤ round3 q ∧ round3 q ≤ 1 := by
  have hlo : (0 : ℤ) ≤ round (q * 1000) := by
    have h' := round_q_mono (show (0 : ℚ) ≤ q * 1000 by nlinarith)
    simpa [round_zero] using h'
  have h1000 : round ((1000 : ℚ)) = (1000 : ℤ) := by decide
  have hhi : round (q * 1000) ≤ (1000 : ℤ) := by
    have h' := round_q_mono (show q * 1000 ≤ (1000 : ℚ) by nlinarith)
    rwa [h1000] at h'
  constructor
  · exact div_nonneg (by exact_mod_cast hlo) (by norm_num)
  · rw [round3, div_le_one (by norm_num)]
    exact_mod_cast hhi

theorem overall_raw_unit (cs : List ℚ → List ℚ → ℚ) (items : List ItemFeatures) :
    0 ≤ overall_raw cs items ∧ overall_raw cs items ≤ 1 := by
  unfold overall_raw
  exact ⟨le_max_left 0 _, max_le (by norm_num) (min_le_left 1 _)⟩

/-! ### Claims about `calculate_compatibility_score` (C1, C2, C10) -/

/-- Claim C1: for every input list with fewer than two item feature dicts
(including the empty list), `calculate_compatibility_score` returns the
degraded result with overall score 0.0, style cohesion 0.0, color harmony
0.0 and the "Not enough items to compare." message — always a value, never
an exception (the model is a total function). -/
theorem c1_insufficient_items_degraded (cs : List ℚ → List ℚ → ℚ)
    (items : List ItemFeatures) (h : items.length < 2) :
    calculate_compatibility_score cs items =
      { score := 0, style_cohesion_score := 0, color_harmony_score := 0,
        message := "Not enough items to compare." } := by
  unfold calculate_compatibility_score
  rw [if_pos h]
  norm_num

theorem c1_insufficient_items_degraded_witness :
    ([] : List ItemFeatures).length < 2 ∧
      calculate_compatibility_score (fun _ _ => 0) [] =
        { score := 0, style_cohesion_score := 0, color_harmony_score := 0,
          message := "Not enough items to compare." } :=
  ⟨by decide, c1_insufficient_items_degraded (fun _ _ => 0) [] (by decide)⟩

/-- Claim C2: with at least two items, the overall score returned is the
weighted sum `0.7·style_cohesion + 0.3·color_harmony` clamped to [0, 1]
(and rounded to 3 decimals, as the code does on return), and in particular
the returned overall score always satisfies `0 ≤ overall ≤ 1`. -/
theorem c2_overall_weighted_and_clamped (cs : List ℚ → List ℚ → ℚ)
    (items : List ItemFeatures) (h : 2 ≤ items.length) :
    (calculate_compatibility_score cs items).score
        = round3 (max 0 (min 1 (style_cohesion_raw cs items * 0.7
            + color_harmony_raw items * 0.3)))
      ∧ 0 ≤ (calculate_compatibility_score cs items).score
      ∧ (calculate_compatibility_score cs items).score ≤ 1 := by
  have heq : (calculate_compatibility_score cs items).score = round3 (overall_raw cs items) := by
    unfold calculate_compatibility_score
    rw [if_neg (by omega)]
  have hb := overall_raw_unit cs items
  have hr := round3_unit hb.1 hb.2
  exact ⟨by rw [heq]; rfl, by rw [heq]; exact hr.1, by rw [heq]; exact hr.2⟩

theorem c2_overall_weighted_and_clamped_witness :
    2 ≤ ([⟨1, "a", [1], ["#FF0000"], "Tops"⟩,
          ⟨2, "b", [1], ["#FF0000"], "Bottoms"⟩] : List ItemFeatures).length ∧
      (0 ≤ (calculate_compatibility_score (fun _ _ => 1)
          [⟨1, "a", [1], ["#FF0000"], "Tops"⟩, ⟨2, "b", [1], ["#FF0000"], "Bottoms"⟩]).score
        ∧ (calculate_compatibility_score (fun _ _ => 1)
          [⟨1, "a", [1], ["#FF0000"], "Tops"⟩, ⟨2, "b", [1], ["#FF0000"], "Bottoms"⟩]).score ≤ 1) :=
  ⟨by decide,
    (c2_overall_weighted_and_clamped (fun _ _ => 1)
      [⟨1, "a", [1], ["#FF0000"], "Tops"⟩, ⟨2, "b", [1], ["#FF0000"], "Bottoms"⟩] (by decide)).2⟩

/-- Claim C10: with at least two items, each of the three returned values
(overall score, style cohesion, color harmony) is the computed raw value
rounded to three decimal places; downstream consumers of the result dict
(such as the coherence filter) therefore see the rounded score. -/
theorem c10_fields_rounded_to_3_decimals (cs : List ℚ → List ℚ → ℚ)
    (items : List ItemFeatures) (h : 2 ≤ items.length) :
    calculate_compatibility_score cs items =
      { score := round3 (overall_raw cs items),
        style_cohesion_score := round3 (style_cohesion_raw cs items),
        color_harmony_score := round3 (color_harmony_raw items),
        message := "Compatibility calculated." } := by
  unfold calculate_compatibility_score
  rw [if_neg (by omega)]

theorem c10_fields_rounded_to_3_decimals_witness :
    2 ≤ ([⟨1, "a", [1], ["#FF0000"], "Tops"⟩,
          ⟨2, "b", [2], ["#FF0000"], "Bottoms"⟩] : List ItemFeatures).length ∧
      calculate_compatibility_score (fun _ _ => 199/500)
          [⟨1, "a", [1], ["#FF0000"], "Tops"⟩, ⟨2, "b", [2], ["#FF0000"], "Bottoms"⟩]
        = { score := round3 (overall_raw (fun _ _ => 199/500)
              [⟨1, "a", [1], ["#FF0000"], "Tops"⟩, ⟨2, "b", [2], ["#FF0000"], "Bottoms"⟩]),
            style_cohesion_score := round3 (style_cohesion_raw (fun _ _ => 199/500)
              [⟨1, "a", [1], ["#FF0000"], "Tops"⟩, ⟨2, "b", [2], ["#FF0000"], "Bottoms"⟩]),
            color_harmony_score := round3 (color_harmony_raw
              [⟨1, "a", [1], ["#FF0000"], "Tops"⟩, ⟨2, "b", [2], ["#FF0000"], "Bottoms"⟩]),
            message := "Compatibility calculated." } :=
  ⟨by decide,
    c10_fields_rounded_to_3_decimals (fun _ _ => 199/500)
      [⟨1, "a", [1], ["#FF0000"], "Tops"⟩, ⟨2, "b", [2], ["#FF0000"], "Bottoms"⟩] (by decide)⟩

/-! ### Claims about the color-harmony analyzer (C5, C7) -/

/-- Claim C5 counterexample: for `["#000000", "#FFFFFF"]` the harmony type
is indeed "neutral", but `check_color_harmony` returns
`0.95 · 0.8 · 1.1 = 0.836 = 209/250`, which is strictly below the claimed
bound `0.855`: the brightness-range penalty (255 > 200, factor 0.8) applies
before the two-unique-colors bonus (factor 1.1). -/
theorem c5_black_white_counterexample :
    get_color_harmony_type ["#000000", "#FFFFFF"] = "neutral"
      ∧ check_color_harmony ["#000000", "#FFFFFF"] = 209 / 250
      ∧ ¬ ((171 : ℚ) / 200 ≤ check_color_harmony ["#000000", "#FFFFFF"]) := by
  refine ⟨by decide, by decide, ?_⟩
  have h : check_color_harmony ["#000000", "#FFFFFF"] = 209 / 250 := by decide
  rw [h]
  norm_num

/-- Claim C5 amended: for `["#000000", "#FFFFFF"]` the classification is
"neutral" and the harmony score is exactly `0.836 = 0.95 × 0.8 × 1.1`
(base 0.95 for neutral, ×0.8 brightness-contrast penalty since the
brightness range is 255 > 200, ×1.1 two-unique-colors bonus), which is at
least 0.8 but below 0.855. -/
theorem c5_black_white_amended :
    get_color_harmony_type ["#000000", "#FFFFFF"] = "neutral"
      ∧ check_color_harmony ["#000000", "#FFFFFF"] = 209 / 250
      ∧ (4 : ℚ) / 5 ≤ check_color_harmony ["#000000", "#FFFFFF"] := by
  refine ⟨by decide, by decide, ?_⟩
  have h : check_color_harmony ["#000000", "#FFFFFF"] = 209 / 250 := by decide
  rw [h]
  norm_num

/-- Claim C7 counterexample: for a color list of length 0 (or 1) the
classification is "monochromatic", not "neutral": the `len < 2` early
return fires before any neutral analysis. -/
theorem c7_short_list_counterexample :
    get_color_harmony_type [] = "monochromatic"
      ∧ get_color_harmony_type ["#FF0000"] = "monochromatic"
      ∧ ¬ get_color_harmony_type [] = "neutral" := by
  refine ⟨by decide, by decide, ?_⟩
  have h : get_color_harmony_type [] = "monochromatic" := by decide
  rw [h]
  decide

/-- Claim C7 amended: for every color list of length at least 2 that
contains fewer than two non-neutral colors (a color is neutral when its
HSV saturation is below 0.2), `get_color_harmony_type` returns "neutral";
lists of length 0 or 1 instead return "monochromatic". -/
theorem c7_few_nonneutral_is_neutral (colors : List String)
    (h2 : 2 ≤ colors.length)
    (hn : (colors.filter (fun c => !neutralHex c)).length < 2) :
    get_color_harmony_type colors = "neutral" := by
  have hhsv : (List.map hsvOfHex (List.filter (fun c => !neutralHex c) colors)).length < 2 := by
    simpa using hn
  simp only [get_color_harmony_type]
  split_ifs <;> first | rfl | omega

theorem c7_few_nonneutral_is_neutral_witness :
    2 ≤ (["#000000", "#FF0000"] : List String).length
      ∧ ((["#000000", "#FF0000"] : List String).filter (fun c => !neutralHex c)).length < 2
      ∧ get_color_harmony_type ["#000000", "#FF0000"] = "neutral" :=
  ⟨by decide, by decide, c7_few_nonneutral_is_neutral ["#000000", "#FF0000"] (by decide) (by decide)⟩

/-! ### Claim about rule-based occasion suitability (C6) -/

/-- Claim C6 counterexample: for style "formal business", colors
["#000000"] and items ["blazer", "tie"] at the default threshold 0.6, the
function returns the generic versatile-casual message, which does not name
"formal": "formal business" matches no occasion's style keywords except
wedding's "formal", so every final score stays below 0.6 (formal scores
0.3, wedding 0.4). -/
theorem c6_formal_business_counterexample :
    determine_occasion_suitability "formal business" ["#000000"] ["blazer", "tie"] 0.6
        = "This outfit has a versatile style that could work for various casual occasions."
      ∧ strContainsStr
          (determine_occasion_suitability "formal business" ["#000000"] ["blazer", "tie"] 0.6)
          "formal" = false := by
  constructor
  · decide
  · decide

/-- Claim C6 amended: with style "formal business", colors ["#000000"] and
items ["blazer", "tie"] at threshold 0.6, no occasion reaches the
threshold — the per-occasion final scores are formal 0.3, casual 0.21,
party 0, wedding 0.4, church 0, outdoor 0.21, date 0 — so the function
returns the generic versatile-casual message instead of naming "formal". -/
theorem c6_formal_business_amended :
    final_occasion_scores "formal business" ["#000000"] ["blazer", "tie"]
        = [("formal", 3/10), ("casual", 21/100), ("party", 0), ("wedding", 2/5),
           ("church", 0), ("outdoor", 21/100), ("date", 0)]
      ∧ (final_occasion_scores "formal business" ["#000000"] ["blazer", "tie"]).all
          (fun p => decide (p.2 < 0.6))
      ∧ determine_occasion_suitability "formal business" ["#000000"] ["blazer", "tie"] 0.6
          = "This outfit has a versatile style that could work for various casual occasions." := by
  refine ⟨by decide, by decide, by decide⟩

/-! ### The stable sort permutes its input -/

theorem insertDescBy_perm {α : Type} (ge : α → α → Bool) (x : α) :
    ∀ l : List α, List.Perm (insertDescBy ge x l) (x :: l)
  | [] => List.Perm.refl _
  | y :: ys => by
    unfold insertDescBy
    split
    · exact List.Perm.refl _
    · exact ((insertDescBy_perm ge x ys).cons y).trans (List.Perm.swap x y ys)

theorem sortDescBy_perm {α : Type} (ge : α → α → Bool) :
    ∀ l : List α, List.Perm (sortDescBy ge l) l
  | [] => List.Perm.refl _
  | x :: xs =>
    (insertDescBy_perm ge x (sortDescBy ge xs)).trans ((sortDescBy_perm ge xs).cons x)

/-! ### Claims about occasion matching (C3, C4) -/

/-- Claim C3: every outfit that survives into the ranked output of
`find_ai_matched_outfits_for_occasion` has internal coherence (the score
computed by `calculate_compatibility_score`) at least
`min_coherence_score`; outfits below the minimum are discarded entirely —
a hard filter, for every occasion text, sentence model and candidate
list. -/
theorem c3_low_coherence_outfits_discarded (cs : List ℚ → List ℚ → ℚ)
    (sm : Option (String → Option (List ℚ))) (occasion_text : String)
    (user_outfits : List OutfitRec) (n : Nat) (min_coherence_score : ℚ)
    (o : OutfitRec)
    (ho : o ∈ find_ai_matched_outfits_for_occasion cs sm occasion_text user_outfits n
      min_coherence_score) :
    ¬ ((calculate_compatibility_score cs o.items).score < min_coherence_score) := by
  unfold find_ai_matched_outfits_for_occasion at ho
  cases sm with
  | none => simp at ho
  | some encode =>
    rw [Option.elim_some] at ho
    cases henc : encode occasion_text with
    | none => rw [henc, Option.elim_none] at ho; simp at ho
    | some occEmb =>
      rw [henc, Option.elim_some] at ho
      by_cases houts : user_outfits = []
      · rw [if_pos houts] at ho; simp at ho
      · rw [if_neg houts] at ho
        rcases List.mem_map.mp ho with ⟨s, hs_take, rfl⟩
        have hs_sorted := List.take_subset n _ hs_take
        have hs_scored := (sortDescBy_perm matchKeyGe _).mem_iff.mp hs_sorted
        rcases List.mem_filterMap.mp hs_scored with ⟨o', _, hsome⟩
        simp only [score_outfit_for_occasion] at hsome
        split_ifs at hsome with h1 h2
        rw [Option.some_inj] at hsome
        subst hsome
        exact h2

theorem c3_low_coherence_outfits_discarded_witness :
    sampleOutfit ∈ find_ai_matched_outfits_for_occasion (fun _ _ => 1)
        (some (fun _ => some [1])) "party" [sampleOutfit] 3 (2/5)
      ∧ ¬ ((calculate_compatibility_score (fun _ _ => 1) sampleOutfit.items).score < 2/5) :=
  ⟨by decide,
    c3_low_coherence_outfits_discarded (fun _ _ => 1) (some (fun _ => some [1])) "party"
      [sampleOutfit] 3 (2/5) sampleOutfit (by decide)⟩

/-- Claim C4: the occasion recommendation service returns the empty list
without any scoring as soon as the combined occasion text is empty after
trimming, and likewise fails soft to the empty list whenever the
text-embedding capability (the sentence model) is unavailable. -/
theorem c4_empty_text_or_no_model_yields_empty (cs : List ℚ → List ℚ → ℚ)
    (sm : Option (String → Option (List ℚ))) (occ_name : String)
    (occ_notes : Option String) (user_outfits : List OutfitRec) (n : Nat) :
    (occasion_text_of occ_name occ_notes = "" →
      recommend_outfits_for_occasion_service cs sm occ_name occ_notes user_outfits n = [])
    ∧ (sm = none →
      recommend_outfits_for_occasion_service cs sm occ_name occ_notes user_outfits n = []) := by
  constructor
  · intro h
    simp [recommend_outfits_for_occasion_service, h]
  · rintro rfl
    simp only [recommend_outfits_for_occasion_service]
    split_ifs
    · rfl
    · rfl

theorem c4_empty_text_or_no_model_yields_empty_witness :
    occasion_text_of " " none = ""
      ∧ recommend_outfits_for_occasion_service (fun _ _ => 1) (some (fun _ => some [1]))
          " " none [sampleOutfit] 3 = []
      ∧ recommend_outfits_for_occasion_service (fun _ _ => 1) none
          "party" none [sampleOutfit] 3 = [] :=
  ⟨by decide,
    (c4_empty_text_or_no_model_yields_empty (fun _ _ => 1) (some (fun _ => some [1]))
      " " none [sampleOutfit] 3).1 (by decide),
    (c4_empty_text_or_no_model_yields_empty (fun _ _ => 1) none
      "party" none [sampleOutfit] 3).2 rfl⟩

/-! ### Claim about wardrobe suggestions (C8) -/

/-- Claim C8: with fewer than two matchable items (embedding, colors and
category all present), the wardrobe recommendation never attempts
combinatorial generation — the result is independent of the injected
random picks — and the returned bundle holds exactly the generic fallback
idea (when matchable items exist) plus the gap-analysis acquisition
suggestions capped at 3. -/
theorem c8_sparse_wardrobe_skips_generation (cs : List ℚ → List ℚ → ℚ)
    (picks : List RandomPick) (processed : List ItemFeatures) (n : Nat)
    (h : (processed.filter item_matchable).length < 2) :
    get_wardrobe_recommendations_core cs picks processed n =
      { newOutfitIdeas :=
          (if processed.filter item_matchable ≠ [] then [fallback_idea_message]
            else []).take n,
        itemsToAcquire := (items_to_acquire_for processed).take 3 } := by
  simp only [get_wardrobe_recommendations_core]
  rw [if_neg (show ¬ 2 ≤ (processed.filter item_matchable).length by omega)]
  simp

theorem c8_sparse_wardrobe_skips_generation_witness :
    (([sampleTop, ⟨3, "Unfinished", [], [], ""⟩] : List ItemFeatures).filter
        item_matchable).length < 2
      ∧ get_wardrobe_recommendations_core (fun _ _ => 1) [⟨0, [0]⟩]
          [sampleTop, ⟨3, "Unfinished", [], [], ""⟩] 5 =
        { newOutfitIdeas :=
            (if ([sampleTop, ⟨3, "Unfinished", [], [], ""⟩] : List ItemFeatures).filter
                item_matchable ≠ [] then [fallback_idea_message] else []).take 5,
          itemsToAcquire :=
            (items_to_acquire_for [sampleTop, ⟨3, "Unfinished", [], [], ""⟩]).take 3 } :=
  ⟨by decide,
    c8_sparse_wardrobe_skips_generation (fun _ _ => 1) [⟨0, [0]⟩]
      [sampleTop, ⟨3, "Unfinished", [], [], ""⟩] 5 (by decide)⟩

/-! ### Permutation invariance of the compatibility pipeline (C9) -/

theorem pairwiseVals_perm {α β : Type} (f : α → α → β)
    (hsym : ∀ a b, f a b = f b a) {l₁ l₂ : List α} (h : List.Perm l₁ l₂) :
    List.Perm (pairwiseVals f l₁) (pairwiseVals f l₂) := by
  induction h with
  | nil => exact List.Perm.refl _
  | cons x h ih => exact List.Perm.append (h.map (f x)) ih
  | swap x y l =>
    simp only [pairwiseVals, List.map_cons, List.cons_append, List.append_assoc]
    rw [hsym y x]
    exact (List.perm_append_comm_assoc (l.map (f y)) (l.map (f x)) (pairwiseVals f l)).cons _
  | trans _ _ ih1 ih2 => exact ih1.trans ih2

theorem perm_any_eq {α : Type} {l₁ l₂ : List α} (h : List.Perm l₁ l₂) (p : α → Bool) :
    l₁.any p = l₂.any p := by
  rw [Bool.eq_iff_iff]
  simp only [List.any_eq_true]
  constructor
  · rintro ⟨x, hx, hp⟩; exact ⟨x, h.mem_iff.mp hx, hp⟩
  · rintro ⟨x, hx, hp⟩; exact ⟨x, h.mem_iff.mpr hx, hp⟩

theorem perm_foldr_max (b : ℚ) {l₁ l₂ : List ℚ} (h : List.Perm l₁ l₂) :
    l₁.foldr max b = l₂.foldr max b :=
  @List.Perm.foldr_eq ℚ ℚ max l₁ l₂ max_left_commutative h b

theorem perm_foldr_min (b : ℚ) {l₁ l₂ : List ℚ} (h : List.Perm l₁ l₂) :
    l₁.foldr min b = l₂.foldr min b :=
  @List.Perm.foldr_eq ℚ ℚ min l₁ l₂ min_left_commutative h b

theorem npVar_perm {l₁ l₂ : List ℚ} (h : List.Perm l₁ l₂) : npVar l₁ = npVar l₂ := by
  simp only [npVar]
  by_cases h1 : l₂ = []
  · subst h1
    rw [if_pos h.eq_nil, if_pos rfl]
  · have h2 : l₁ ≠ [] := fun he => h1 ((he ▸ h.symm).eq_nil)
    rw [if_neg h2, if_neg h1, h.sum_eq, h.length_eq, (h.map _).sum_eq]

theorem npVar_ite (l : List ℚ) : (if l = [] then (0 : ℚ) else npVar l) = npVar l := by
  by_cases h : l = []
  · subst h; simp [npVar]
  · rw [if_neg h]

theorem mem_dedupFirstAux {α : Type} [DecidableEq α] (x : α) :
    ∀ (l seen : List α), x ∈ dedupFirstAux seen l ↔ x ∈ l ∧ x ∉ seen
  | [], seen => by simp [dedupFirstAux]
  | a :: l, seen => by
    by_cases ha : a ∈ seen
    · rw [dedupFirstAux, if_pos ha, mem_dedupFirstAux x l seen]
      constructor
      · rintro ⟨hl, hs⟩; exact ⟨List.mem_cons_of_mem a hl, hs⟩
      · rintro ⟨hal, hs⟩
        rcases List.mem_cons.mp hal with rfl | hl
        · exact absurd ha hs
        · exact ⟨hl, hs⟩
    · rw [dedupFirstAux, if_neg ha]
      constructor
      · intro hx
        rcases List.mem_cons.mp hx with rfl | hx'
        · exact ⟨List.mem_cons_self x l, ha⟩
        · rcases (mem_dedupFirstAux x l (a :: seen)).mp hx' with ⟨hl, hs⟩
          exact ⟨List.mem_cons_of_mem a hl,
            fun hxs => hs (List.mem_cons_of_mem a hxs)⟩
      · rintro ⟨hal, hs⟩
        rcases List.mem_cons.mp hal with rfl | hl
        · exact List.mem_cons_self x _
        · by_cases hxa : x = a
          · subst hxa; exact List.mem_cons_self x _
          · exact List.mem_cons_of_mem a ((mem_dedupFirstAux x l (a :: seen)).mpr
              ⟨hl, fun hxs => (List.mem_cons.mp hxs).elim hxa hs⟩)

theorem nodup_dedupFirstAux {α : Type} [DecidableEq α] :
    ∀ (l seen : List α), (dedupFirstAux seen l).Nodup
  | [], _ => List.nodup_nil
  | a :: l, seen => by
    by_cases ha : a ∈ seen
    · rw [dedupFirstAux, if_pos ha]
      exact nodup_dedupFirstAux l seen
    · rw [dedupFirstAux, if_neg ha]
      refine List.Nodup.cons ?_ (nodup_dedupFirstAux l (a :: seen))
      intro hmem
      exact ((mem_dedupFirstAux a l (a :: seen)).mp hmem).2 (List.mem_cons_self a seen)

theorem mem_dedupFirst {α : Type} [DecidableEq α] (x : α) (l : List α) :
    x ∈ dedupFirst l ↔ x ∈ l := by
  rw [dedupFirst, mem_dedupFirstAux]
  simp

theorem nodup_dedupFirst {α : Type} [DecidableEq α] (l : List α) :
    (dedupFirst l).Nodup :=
  nodup_dedupFirstAux l []

theorem dedupFirst_perm {α : Type} [DecidableEq α] {l₁ l₂ : List α}
    (h : List.Perm l₁ l₂) : List.Perm (dedupFirst l₁) (dedupFirst l₂) := by
  apply List.perm_of_nodup_nodup_toFinset_eq (nodup_dedupFirst l₁) (nodup_dedupFirst l₂)
  ext a
  simp only [List.mem_toFinset, mem_dedupFirst]
  exact h.mem_iff

theorem circularHueDiff_symm (a b : ℚ) : circularHueDiff a b = circularHueDiff b a := by
  unfold circularHueDiff
  rw [abs_sub_comm]

theorem get_color_harmony_type_perm {l₁ l₂ : List String} (h : List.Perm l₁ l₂) :
    get_color_harmony_type l₁ = get_color_harmony_type l₂ := by
  have hfm : List.Perm ((l₁.filter (fun c => !neutralHex c)).map hsvOfHex)
      ((l₂.filter (fun c => !neutralHex c)).map hsvOfHex) :=
    (h.filter (fun c => !neutralHex c)).map hsvOfHex
  have hdiffs := pairwiseVals_perm circularHueDiff circularHueDiff_symm
    (hfm.map (fun t => t.1))
  simp only [get_color_harmony_type]
  rw [h.length_eq, h.countP_eq neutralHex, hfm.length_eq, hdiffs.sum_eq,
    hdiffs.length_eq, perm_foldr_max 0 hdiffs, perm_any_eq hdiffs,
    perm_any_eq hdiffs]
  by_cases hnil : pairwiseVals circularHueDiff
      (((l₂.filter (fun c => !neutralHex c)).map hsvOfHex).map (fun t => t.1)) = []
  · have hnil1 : pairwiseVals circularHueDiff
        (((l₁.filter (fun c => !neutralHex c)).map hsvOfHex).map (fun t => t.1)) = [] :=
      (hnil ▸ hdiffs).eq_nil
    rw [if_pos hnil1, if_pos hnil]
  · have hnil1 : ¬ pairwiseVals circularHueDiff
        (((l₁.filter (fun c => !neutralHex c)).map hsvOfHex).map (fun t => t.1)) = [] :=
      fun he => hnil ((he ▸ hdiffs.symm).eq_nil)
    rw [if_neg hnil1, if_neg hnil]

theorem harmonyOfUnique_perm {l₁ l₂ : List String} (h : List.Perm l₁ l₂) :
    harmonyOfUnique l₁ = harmonyOfUnique l₂ := by
  have hb : List.Perm
      (l₁.map (fun c => match hex_to_rgb c with | (r, g, b) => ((r + g + b : Nat) : ℚ) / 3))
      (l₂.map (fun c => match hex_to_rgb c with | (r, g, b) => ((r + g + b : Nat) : ℚ) / 3)) :=
    h.map _
  have hs : List.Perm (l₁.map (fun c => (hsvOfHex c).2.1))
      (l₂.map (fun c => (hsvOfHex c).2.1)) := h.map _
  simp only [harmonyOfUnique]
  rw [h.length_eq, get_color_harmony_type_perm h, perm_foldr_max 0 hb,
    perm_foldr_min 255 hb, npVar_ite, npVar_ite, npVar_perm hs]

theorem check_color_harmony_perm {l₁ l₂ : List String} (h : List.Perm l₁ l₂) :
    check_color_harmony l₁ = check_color_harmony l₂ := by
  simp only [check_color_harmony]
  rw [h.length_eq, harmonyOfUnique_perm (dedupFirst_perm h)]

theorem style_cohesion_raw_perm (cs : List ℚ → List ℚ → ℚ)
    (hsym : ∀ a b, cs a b = cs b a) {l₁ l₂ : List ItemFeatures}
    (h : List.Perm l₁ l₂) :
    style_cohesion_raw cs l₁ = style_cohesion_raw cs l₂ := by
  have hemb : List.Perm
      ((l₁.filter (fun i => !i.embedding.isEmpty)).map (fun i => i.embedding))
      ((l₂.filter (fun i => !i.embedding.isEmpty)).map (fun i => i.embedding)) :=
    (h.filter (fun i => !i.embedding.isEmpty)).map (fun i => i.embedding)
  have hsims := pairwiseVals_perm cs hsym hemb
  simp only [style_cohesion_raw]
  rw [hemb.length_eq, hsims.sum_eq, hsims.length_eq]
  by_cases hnil : pairwiseVals cs
      ((l₂.filter (fun i => !i.embedding.isEmpty)).map (fun i => i.embedding)) = []
  · have hnil1 : pairwiseVals cs
        ((l₁.filter (fun i => !i.embedding.isEmpty)).map (fun i => i.embedding)) = [] :=
      (hnil ▸ hsims).eq_nil
    rw [if_pos hnil1, if_pos hnil]
  · have hnil1 : ¬ pairwiseVals cs
        ((l₁.filter (fun i => !i.embedding.isEmpty)).map (fun i => i.embedding)) = [] :=
      fun he => hnil ((he ▸ hsims.symm).eq_nil)
    rw [if_neg hnil1, if_neg hnil]

theorem color_harmony_raw_perm {l₁ l₂ : List ItemFeatures} (h : List.Perm l₁ l₂) :
    color_harmony_raw l₁ = color_harmony_raw l₂ := by
  simp only [color_harmony_raw, pooled_unique_colors]
  exact check_color_harmony_perm (dedupFirst_perm
    (h.flatMap_right (fun i => if i.colors.isEmpty then [] else i.colors)))

theorem overall_raw_perm (cs : List ℚ → List ℚ → ℚ)
    (hsym : ∀ a b, cs a b = cs b a) {l₁ l₂ : List ItemFeatures}
    (h : List.Perm l₁ l₂) : overall_raw cs l₁ = overall_raw cs l₂ := by
  simp only [overall_raw]
  rw [style_cohesion_raw_perm cs hsym h, color_harmony_raw_perm h]

/-- Claim C9: `calculate_compatibility_score` is invariant under
permutation of its item list, given that the injected cosine similarity is
symmetric (as the sklearn cosine is): the overall score, the style
cohesion score and the color harmony score all coincide — style cohesion
averages over unordered pairs, and the pooled colors are deduplicated
order-independently. -/
theorem c9_score_permutation_invariant (cs : List ℚ → List ℚ → ℚ)
    (hsym : ∀ a b, cs a b = cs b a) {l₁ l₂ : List ItemFeatures}
    (hperm : List.Perm l₁ l₂) :
    calculate_compatibility_score cs l₁ = calculate_compatibility_score cs l₂ := by
  simp only [calculate_compatibility_score]
  rw [hperm.length_eq, overall_raw_perm cs hsym hperm,
    style_cohesion_raw_perm cs hsym hperm, color_harmony_raw_perm hperm]

theorem c9_score_permutation_invariant_witness :
    (∀ a b : List ℚ, (fun _ _ => (1 : ℚ)/2) a b = (fun _ _ => (1 : ℚ)/2) b a)
      ∧ List.Perm [sampleTop, sampleBottom] [sampleBottom, sampleTop]
      ∧ calculate_compatibility_score (fun _ _ => (1 : ℚ)/2) [sampleTop, sampleBottom]
          = calculate_compatibility_score (fun _ _ => (1 : ℚ)/2) [sampleBottom, sampleTop] :=
  ⟨fun _ _ => rfl, List.Perm.swap sampleBottom sampleTop [],
    c9_score_permutation_invariant (fun _ _ => (1 : ℚ)/2) (fun _ _ => rfl)
      (List.Perm.swap sampleBottom sampleTop [])⟩

end Wardrobe
